import Mathlib

/-!
Shallow embedding of
`src/.ansible/collections/ansible_collections/karcadia/aws/plugins/modules/ssm_parameter_info.py`
(the `karcadia.aws.ssm_parameter_info` Ansible module).

The module queries AWS SSM Parameter Store in one of three modes, chosen by
`main` (lines 176-196 of the source):
  * single-name mode   (`name` truthy),
  * batch mode         (`names` truthy),
  * catalog mode       (neither truthy): `list_parameters` + optional enrichment.

The external service is modelled as a list of ground-truth parameter records
(`store`): `get_parameters` returns, for each requested name that exists, the
stored record (values included); `describe_parameters` pagination returns the
store's records without values, chunked into pages of a given size.  `resolve`
returns the Python-level outcome — either the `result_list` passed to
`module.exit_json` or the uncaught Python exception — paired with the trace of
outbound service calls, so that call-count claims are statable.
-/

namespace SsmParameterInfo

/-- One SSM parameter record as returned by the service (the boto3 dict with
keys `Name`, `Type`, `Value`, `Version`, `ARN`, `LastModifiedDate`,
`DataType`).  `value` is optional because the module deletes the `Value` key
(`del result['Value']`) and listing calls never include it. -/
structure ParameterRecord where
  name : String
  ptype : String
  value : Option String
  version : Nat
  arn : String
  lastModifiedDate : String
  dataType : String
deriving Repr, DecidableEq

/-- Uncaught Python exceptions the module can raise on its live paths. -/
inductive PyError where
  /-- `NameError`: an unbound identifier was evaluated (line 141 evaluates
  `existing_parameter`, which is never assigned). -/
  | nameError (ident : String)
  /-- `IndexError`: `[0]` on an empty list (line 177 / line 194). -/
  | indexError
deriving Repr, DecidableEq

/-- Outbound service calls, recorded in the order they are issued. -/
inductive ServiceCall where
  /-- One `client.get_parameters(Names=names)` call. -/
  | getParameters (names : List String)
  /-- One page request of the `describe_parameters` paginator. -/
  | describePage (ix : Nat)
deriving Repr, DecidableEq

/-- Python truthiness of an optional string option (`None` and `""` are
falsy). -/
def truthyStr : Option String → Bool
  | none => false
  | some s => decide (s ≠ "")

/-- Python truthiness of an optional list option (`None` and `[]` are
falsy). -/
def truthyList : Option (List String) → Bool
  | none => false
  | some l => decide (l ≠ [])

/-- The caller-supplied options of the module (argument_spec at lines
156-160): `name`, `names`, `return_values`, each optional. -/
structure ModuleParams where
  name : Option String
  names : Option (List String)
  return_values : Option Bool
deriving Repr, DecidableEq

/-- Lines 171-174 of `main`: `return_values` is `True` exactly when the
option is present and truthy, otherwise `False`. -/
def returnValuesFlag (p : ModuleParams) : Bool :=
  match p.return_values with
  | some b => b
  | none => false

/-- The service's record for a requested name: first store entry whose
`Name` matches. -/
def lookup (store : List ParameterRecord) (n : String) : Option ParameterRecord :=
  store.find? (fun r => r.name == n)

/-- Response shape of `client.get_parameters`: resolvable names yield their
records (values included, in request order); the rest are reported under
`InvalidParameters`. -/
structure GetParametersResult where
  Parameters : List ParameterRecord
  InvalidParameters : List String
deriving Repr, DecidableEq

/-- `client.get_parameters(Names=names)`. -/
def get_parameters (store : List ParameterRecord) (names : List String) :
    GetParametersResult :=
  { Parameters := names.filterMap (lookup store)
  , InvalidParameters := names.filter (fun n => (lookup store n).isNone) }

/-- Lines 178-179 / 185-186: `if 'Value' in result and not return_values:
del result['Value']`. -/
def stripValue (return_values : Bool) (r : ParameterRecord) : ParameterRecord :=
  if r.value.isSome && !return_values then { r with value := none } else r

/-- `describe_parameters` responses never carry the `Value` key. -/
def describeView (r : ParameterRecord) : ParameterRecord :=
  { r with value := none }

/-- Split a list into consecutive pages of (at most) `k` elements.  The
`fuel` argument only bounds the recursion depth; each step consumes at least
one element, so `fuel = l.length` never runs out and the `0` fallback arm is
unreachable. -/
def chunkPagesAux (k : Nat) : Nat → List α → List (List α)
  | _, [] => []
  | 0, l => [l]
  | fuel + 1, a :: as => (a :: as.take (k - 1)) :: chunkPagesAux k fuel (as.drop (k - 1))

/-- Split a list into consecutive pages of (at most) `k` elements, as the
service's pagination cursor does. -/
def chunkPages (k : Nat) (l : List α) : List (List α) :=
  chunkPagesAux k l.length l

/-- Aggregate dict built by `paginator.paginate(**args).build_full_result()`:
all pages' `Parameters` concatenated. -/
structure FullResult where
  Parameters : List ParameterRecord
deriving Repr, DecidableEq

/-- The paginator: issues one `describe_parameters` page call per page and
concatenates the pages (line 139). -/
def build_full_result (pageSize : Nat) (store : List ParameterRecord) :
    FullResult × List ServiceCall :=
  let pages := chunkPages pageSize (store.map describeView)
  ({ Parameters := pages.flatten }, (List.range pages.length).map ServiceCall.describePage)

/-- Lines 136-148.  After `build_full_result` completes, line 141 tests
`if not existing_parameter["Parameters"]` — but the bound local is
`existing_params`; `existing_parameter` is assigned nowhere (neither locally
nor at module level), so evaluating it raises `NameError` before either
`return` statement can run. -/
def list_parameters (pageSize : Nat) (store : List ParameterRecord) :
    Except PyError FullResult × List ServiceCall :=
  let (existing_params, calls) := build_full_result pageSize store
  let _ := existing_params
  (Except.error (PyError.nameError "existing_parameter"), calls)

/-- Lines 190-194 of `main` (reachable only if `list_parameters` returned):
for each listed parameter, fetch `get_parameters(Names=[param['Name']])` and
append `detail['Parameters'][0]` — `[0]` on an empty list raises
`IndexError` and aborts the loop. -/
def enrichAll (store : List ParameterRecord) :
    List ParameterRecord → Except PyError (List ParameterRecord) × List ServiceCall
  | [] => (Except.ok [], [])
  | param :: rest =>
    let call := ServiceCall.getParameters [param.name]
    match (get_parameters store [param.name]).Parameters with
    | [] => (Except.error PyError.indexError, [call])
    | detail0 :: _ =>
      match enrichAll store rest with
      | (Except.error e, calls) => (Except.error e, call :: calls)
      | (Except.ok ds, calls) => (Except.ok (detail0 :: ds), call :: calls)

/-- Lines 167-208 of `main`, run against a store whose listing pages hold
`pageSize` records each: the `result_list` handed to
`module.exit_json(parameters=result_list)` (or the uncaught exception),
together with the trace of service calls. -/
def resolve (p : ModuleParams) (store : List ParameterRecord) (pageSize : Nat) :
    Except PyError (List ParameterRecord) × List ServiceCall :=
  let return_values := returnValuesFlag p
  if truthyStr p.name then
    -- lines 176-180: single-name mode
    let n := p.name.getD ""
    match (get_parameters store [n]).Parameters with
    | [] => (Except.error PyError.indexError, [ServiceCall.getParameters [n]])
    | result :: _ =>
      (Except.ok [stripValue return_values result], [ServiceCall.getParameters [n]])
  else if truthyList p.names then
    -- lines 181-187: batch mode
    let ns := p.names.getD []
    (Except.ok ((get_parameters store ns).Parameters.map (stripValue return_values)),
     [ServiceCall.getParameters ns])
  else
    -- lines 188-196: catalog mode
    match list_parameters pageSize store with
    | (Except.error e, listCalls) => (Except.error e, listCalls)
    | (Except.ok param_list, listCalls) =>
      if return_values then
        match enrichAll store param_list.Parameters with
        | (Except.error e, fetchCalls) => (Except.error e, listCalls ++ fetchCalls)
        | (Except.ok rs, fetchCalls) => (Except.ok rs, listCalls ++ fetchCalls)
      else
        (Except.ok param_list.Parameters, listCalls)

/-- Concrete record used by the witnesses (the spec's §8 example store). -/
def pHello : ParameterRecord :=
  { name := "Hello", ptype := "String", value := some "World", version := 1
  , arn := "arn:aws:ssm:us-east-1:123456789:parameter/hello"
  , lastModifiedDate := "2022-06-20T09:56:58", dataType := "text" }

/-- A second and third concrete record for multi-page catalog stores. -/
def pSubnet1 : ParameterRecord :=
  { name := "subnet1", ptype := "String", value := some "subnet-0a1", version := 2
  , arn := "arn:aws:ssm:us-east-1:123456789:parameter/subnet1"
  , lastModifiedDate := "2022-06-21T00:00:00", dataType := "text" }

def pSubnet2 : ParameterRecord :=
  { name := "subnet2", ptype := "String", value := some "subnet-0b2", version := 1
  , arn := "arn:aws:ssm:us-east-1:123456789:parameter/subnet2"
  , lastModifiedDate := "2022-06-22T00:00:00", dataType := "text" }

/-- Three-parameter store; with page size 2 its listing spans two pages. -/
def catalogStore3 : List ParameterRecord := [pHello, pSubnet1, pSubnet2]

/-! ### Helper lemmas -/

/-- Stripping with `return_values = False` always leaves no value. -/
theorem stripValue_false_value (r : ParameterRecord) : (stripValue false r).value = none := by
  cases h : r.value <;> simp [stripValue, h]

/-- Stripping with `return_values = True` is the identity. -/
theorem stripValue_true (r : ParameterRecord) : stripValue true r = r := by
  simp [stripValue]

/-- Function-level form of `stripValue_true`. -/
theorem stripValue_true_fun :
    (stripValue true : ParameterRecord → ParameterRecord) = id := by
  funext r
  simp [stripValue]

/-- Stripping never touches the `Name` key. -/
theorem stripValue_name (b : Bool) (r : ParameterRecord) : (stripValue b r).name = r.name := by
  unfold stripValue
  split <;> rfl

/-- A record found by `lookup` carries the requested name. -/
theorem lookup_name {store : List ParameterRecord} {n : String} {r : ParameterRecord}
    (h : lookup store n = some r) : r.name = n := by
  unfold lookup at h
  simpa using List.find?_some h

/-- A `get_parameters` call for a single name returns the looked-up record,
or nothing. -/
theorem get_parameters_single (store : List ParameterRecord) (n : String) :
    (get_parameters store [n]).Parameters = (lookup store n).toList := by
  cases h : lookup store n <;> simp [get_parameters, h]

/-- A record in a `get_parameters` response is exactly the store's record for
its own name. -/
theorem mem_filterMap_lookup {store : List ParameterRecord} {ns : List String}
    {r : ParameterRecord} (h : r ∈ ns.filterMap (lookup store)) :
    lookup store r.name = some r := by
  rcases List.mem_filterMap.mp h with ⟨n, _, hn⟩
  rwa [lookup_name hn]

/-- When every requested name resolves, the `get_parameters` response holds
one record per requested name, named in request order. -/
theorem lookup_filterMap_names (store : List ParameterRecord) :
    ∀ ns : List String, (∀ n ∈ ns, (lookup store n).isSome = true) →
      (ns.filterMap (lookup store)).map (fun r => r.name) = ns := by
  intro ns
  induction ns with
  | nil => intro _; rfl
  | cons n rest ih =>
    intro h
    rcases Option.isSome_iff_exists.mp (h n (by simp)) with ⟨r, hr⟩
    simp [List.filterMap_cons, hr, lookup_name hr, ih (fun m hm => h m (by simp [hm]))]

/-- Reduction of `resolve` in batch mode (lines 181-187): one
`get_parameters` call for the whole list, whose returned records are kept in
response order, each stripped per `return_values`. -/
theorem resolve_batch (p : ModuleParams) (store : List ParameterRecord)
    (pageSize : Nat) (ns : List String)
    (h1 : truthyStr p.name = false) (hns : p.names = some ns) (hne : ns ≠ []) :
    resolve p store pageSize
      = (Except.ok ((ns.filterMap (lookup store)).map
            (stripValue (returnValuesFlag p))),
         [ServiceCall.getParameters ns]) := by
  simp [resolve, h1, hns, truthyList, hne, get_parameters]

/-! ### Claims -/

/-- Claim C1: in catalog mode (neither `name` nor `names` supplied truthy),
line 141's test `if not existing_parameter["Parameters"]` evaluates the
unbound identifier `existing_parameter`, so `list_parameters` raises an
uncaught `NameError` after the paginated listing and catalog mode never
produces a parameter list — for any `return_values` setting. -/
theorem C1_catalog_mode_name_error (p : ModuleParams) (store : List ParameterRecord)
    (pageSize : Nat) (h1 : truthyStr p.name = false) (h2 : truthyList p.names = false) :
    (resolve p store pageSize).1 = Except.error (PyError.nameError "existing_parameter") := by
  simp [resolve, h1, h2, list_parameters, build_full_result]

/-- Witness for C1 at a concrete catalog-mode request (here with
`return_values = True`; the hypotheses make no demand on it). -/
theorem C1_catalog_mode_name_error_witness :
    (resolve ⟨none, none, some true⟩ catalogStore3 2).1
      = Except.error (PyError.nameError "existing_parameter") :=
  C1_catalog_mode_name_error ⟨none, none, some true⟩ catalogStore3 2 rfl rfl

/-- Claim C2 (stripping invariant): whenever `return_values` is absent or
false, every record in a successfully returned result list has no value
field, in every mode. -/
theorem C2_strip_invariant (p : ModuleParams) (store : List ParameterRecord)
    (pageSize : Nat) (rs : List ParameterRecord) (r : ParameterRecord)
    (hrv : returnValuesFlag p = false)
    (hok : (resolve p store pageSize).1 = Except.ok rs)
    (hr : r ∈ rs) : r.value = none := by
  cases h1 : truthyStr p.name with
  | true =>
    rcases hl : lookup store (p.name.getD "") with _ | a
    · simp [resolve, h1, get_parameters_single, hl] at hok
    · simp [resolve, h1, get_parameters_single, hl, hrv] at hok
      subst hok
      simp at hr
      rw [hr]
      exact stripValue_false_value a
  | false =>
    cases h2 : truthyList p.names with
    | true =>
      simp [resolve, h1, h2, hrv] at hok
      subst hok
      rcases List.mem_map.mp hr with ⟨a, _, ha⟩
      rw [← ha]
      exact stripValue_false_value a
    | false =>
      simp [resolve, h1, h2, list_parameters, build_full_result] at hok

/-- Witness for C2 on the spec's §8 example: request `{name: "Hello"}`
without values against a store holding `{Hello, value World}`; the returned
record has no value. -/
theorem C2_strip_invariant_witness :
    (describeView pHello).value = none :=
  C2_strip_invariant ⟨some "Hello", none, none⟩ [pHello] 2 [describeView pHello]
    (describeView pHello) rfl rfl (by simp)

/-- Claim C3 (single-name not-found): in single-name mode the module fails
precisely when the service has no record for the requested key, and it never
returns an empty result list.  The concrete failure is the uncaught
`IndexError` from `['Parameters'][0]` on the empty response (line 177) —
within single-name mode it occurs exactly on a missing key, so it is the
module's distinguishable not-found failure. -/
theorem C3_single_name_not_found (p : ModuleParams) (store : List ParameterRecord)
    (pageSize : Nat) (hname : truthyStr p.name = true) :
    ((resolve p store pageSize).1 = Except.error PyError.indexError
      ↔ lookup store (p.name.getD "") = none)
    ∧ (resolve p store pageSize).1 ≠ Except.ok [] := by
  rcases hl : lookup store (p.name.getD "") with _ | a <;>
    simp [resolve, hname, get_parameters_single, hl]

/-- Witness for C3: requesting `Missing` from a store holding only `Hello`
raises the not-found failure and returns no (empty) list. -/
theorem C3_single_name_not_found_witness :
    (((resolve ⟨some "Missing", none, none⟩ [pHello] 2).1
        = Except.error PyError.indexError
      ↔ lookup [pHello] "Missing" = none)
    ∧ (resolve ⟨some "Missing", none, none⟩ [pHello] 2).1 ≠ Except.ok []) :=
  C3_single_name_not_found ⟨some "Missing", none, none⟩ [pHello] 2 (by decide)

/-- Claim C4 (catalog pagination) is a code bug: against a three-parameter
store with page size 2 the paginator is driven through both pages, but the
module then raises `NameError` on the unbound `existing_parameter` (line 141)
and returns no record at all, instead of the claimed union of the pages. -/
theorem C4_catalog_pagination_crash :
    resolve ⟨none, none, none⟩ catalogStore3 2
      = (Except.error (PyError.nameError "existing_parameter"),
         [ServiceCall.describePage 0, ServiceCall.describePage 1]) := rfl

/-- Claim C5 (inclusion invariant): with `return_values = True`, every record
in a successfully returned result list is exactly the store's record for its
name — value included, untouched. -/
theorem C5_inclusion_invariant (p : ModuleParams) (store : List ParameterRecord)
    (pageSize : Nat) (rs : List ParameterRecord) (r : ParameterRecord)
    (hrv : returnValuesFlag p = true)
    (hok : (resolve p store pageSize).1 = Except.ok rs)
    (hr : r ∈ rs) : lookup store r.name = some r := by
  cases h1 : truthyStr p.name with
  | true =>
    rcases hl : lookup store (p.name.getD "") with _ | a
    · simp [resolve, h1, get_parameters_single, hl] at hok
    · simp [resolve, h1, get_parameters_single, hl, hrv, stripValue_true] at hok
      subst hok
      simp at hr
      rw [hr, lookup_name hl]
      exact hl
  | false =>
    cases h2 : truthyList p.names with
    | true =>
      simp [resolve, h1, h2, hrv, stripValue_true_fun, get_parameters] at hok
      subst hok
      exact mem_filterMap_lookup hr
    | false =>
      simp [resolve, h1, h2, list_parameters, build_full_result] at hok

/-- Witness for C5 on the spec's §8 example: request
`{name: "Hello", returnValues: true}`; the returned record is the stored one,
value `World` included. -/
theorem C5_inclusion_invariant_witness :
    lookup [pHello] pHello.name = some pHello :=
  C5_inclusion_invariant ⟨some "Hello", none, some true⟩ [pHello] 2 [pHello] pHello
    rfl rfl (by simp)

/-- Claim C6 (batch count and order): requesting N distinct names that all
exist issues exactly one `get_parameters` call with the whole list and
returns exactly N records, one per requested name, in the order the service
returned them (its response order for the request list). -/
theorem C6_batch_count (p : ModuleParams) (store : List ParameterRecord)
    (pageSize : Nat) (ns : List String)
    (h1 : truthyStr p.name = false) (hns : p.names = some ns)
    (_hnodup : ns.Nodup) (hne : ns ≠ [])
    (hex : ∀ n ∈ ns, (lookup store n).isSome = true) :
    (resolve p store pageSize).1.map (fun rs => rs.length) = Except.ok ns.length
    ∧ (resolve p store pageSize).1.map (fun rs => rs.map (fun r => r.name)) = Except.ok ns
    ∧ (resolve p store pageSize).2 = [ServiceCall.getParameters ns] := by
  have hnames := lookup_filterMap_names store ns hex
  have hlen : (ns.filterMap (lookup store)).length = ns.length := by
    conv_rhs => rw [← hnames]
    simp
  refine ⟨?_, ?_, ?_⟩ <;>
    rw [resolve_batch p store pageSize ns h1 hns hne] <;>
    simp [Except.map, hlen, hnames, List.map_map, Function.comp_def, stripValue_name]

/-- Witness for C6: batch request for the two existing subnet parameters
returns two records, named in order, from one service call. -/
theorem C6_batch_count_witness :
    ((resolve ⟨none, some ["subnet1", "subnet2"], none⟩ catalogStore3 2).1.map
        (fun rs => rs.length) = Except.ok (["subnet1", "subnet2"] : List String).length
    ∧ (resolve ⟨none, some ["subnet1", "subnet2"], none⟩ catalogStore3 2).1.map
        (fun rs => rs.map (fun r => r.name)) = Except.ok ["subnet1", "subnet2"]
    ∧ (resolve ⟨none, some ["subnet1", "subnet2"], none⟩ catalogStore3 2).2
        = [ServiceCall.getParameters ["subnet1", "subnet2"]]) :=
  C6_batch_count ⟨none, some ["subnet1", "subnet2"], none⟩ catalogStore3 2
    ["subnet1", "subnet2"] rfl rfl (by decide) (by decide) (by decide)

/-- Claim C7 (catalog enrichment cost) is a code bug: catalog mode with
`return_values = True` against a three-parameter store drives the paginator
through its pages but then raises `NameError` (line 141); the per-parameter
`get_parameters` enrichment loop of lines 190-194 is never reached, so zero
value-fetch calls are issued and no record is returned, instead of the
claimed K fetches with merged values. -/
theorem C7_catalog_enrichment_crash :
    resolve ⟨none, none, some true⟩ catalogStore3 2
      = (Except.error (PyError.nameError "existing_parameter"),
         [ServiceCall.describePage 0, ServiceCall.describePage 1]) := rfl

/-- Claim C8 (silent batch partial success): batch mode returns exactly the
records the service resolved, stripped per `return_values`, from one call —
the `InvalidParameters` report is never inspected, so names the service could
not resolve are silently omitted and no error is raised. -/
theorem C8_batch_partial_silence (p : ModuleParams) (store : List ParameterRecord)
    (pageSize : Nat) (ns : List String)
    (h1 : truthyStr p.name = false) (hns : p.names = some ns) (hne : ns ≠ []) :
    (resolve p store pageSize).1
      = Except.ok ((ns.filterMap (lookup store)).map (stripValue (returnValuesFlag p)))
    ∧ (resolve p store pageSize).2 = [ServiceCall.getParameters ns] := by
  rw [resolve_batch p store pageSize ns h1 hns hne]
  exact ⟨rfl, rfl⟩

/-- Witness for C8: batch request for `Hello` and the nonexistent `Missing`
against a store holding only `Hello` succeeds with the one resolved record;
`Missing` is silently dropped. -/
theorem C8_batch_partial_silence_witness :
    ((resolve ⟨none, some ["Hello", "Missing"], none⟩ [pHello] 2).1
      = Except.ok (((["Hello", "Missing"] : List String).filterMap (lookup [pHello])).map
          (stripValue (returnValuesFlag ⟨none, some ["Hello", "Missing"], none⟩)))
    ∧ (resolve ⟨none, some ["Hello", "Missing"], none⟩ [pHello] 2).2
      = [ServiceCall.getParameters ["Hello", "Missing"]]) :=
  C8_batch_partial_silence ⟨none, some ["Hello", "Missing"], none⟩ [pHello] 2
    ["Hello", "Missing"] rfl rfl (by simp)

/-- Claim C9 (`returnValues` default): leaving `return_values` unsupplied and
supplying it as `False` produce the same result list and the same service
calls, for every combination of the other options and every store. -/
theorem C9_return_values_default (nm : Option String) (ns : Option (List String))
    (store : List ParameterRecord) (pageSize : Nat) :
    resolve ⟨nm, ns, none⟩ store pageSize
      = resolve ⟨nm, ns, some false⟩ store pageSize := rfl

/-- Claim C10 (single-name precedence): when both `name` and `names` are
truthy, the `if`/`elif` ordering of lines 176-187 makes the module behave
exactly as single-name mode for `name`: the `names` list is ignored and the
only service call is the one single-name `get_parameters`; no configuration
error is raised. -/
theorem C10_single_name_priority (p : ModuleParams) (store : List ParameterRecord)
    (pageSize : Nat)
    (hname : truthyStr p.name = true) (_hnames : truthyList p.names = true) :
    resolve p store pageSize = resolve ⟨p.name, none, p.return_values⟩ store pageSize
    ∧ (resolve p store pageSize).2 = [ServiceCall.getParameters [p.name.getD ""]] := by
  constructor
  · simp [resolve, hname, returnValuesFlag]
  · rcases hl : lookup store (p.name.getD "") with _ | a <;>
      simp [resolve, hname, get_parameters_single, hl]

/-- Witness for C10: `name = "Hello"` together with a non-empty `names` list
behaves as the plain single-name request and issues only its call. -/
theorem C10_single_name_priority_witness :
    (resolve ⟨some "Hello", some ["subnet1"], some false⟩ [pHello] 2
        = resolve ⟨some "Hello", none, some false⟩ [pHello] 2
    ∧ (resolve ⟨some "Hello", some ["subnet1"], some false⟩ [pHello] 2).2
        = [ServiceCall.getParameters ["Hello"]]) :=
  C10_single_name_priority ⟨some "Hello", some ["subnet1"], some false⟩ [pHello] 2
    (by decide) (by decide)

end SsmParameterInfo
